import Mathlib

/-
  Verification development for the 6502 CPU emulator core in
  src/include/cpu6502.h.

  The header is shallowly embedded: C enumerations become Nat-valued
  constants (C enumerators are plain integers, and the header relies on
  their numeric values, including an aliased one), the two 256-entry
  opcode tables become total functions on Nat, and the cpu6502 struct
  becomes a Lean structure.  Machine integers are modelled as Nat with
  an explicit `% 2 ^ w` at every write where the C type truncates
  (uint16_t writes `% 65536`, size_t arithmetic `% 2 ^ 64`).  A uint8_t
  cell can only ever hold a value below 256, so theorems that read raw
  memory carry that bound as a hypothesis where it matters.

  The header contains no AddressResolver and no Executor; the
  definitions for those components are modelled from the spec and are
  marked as such in their doc comments.
-/

set_option maxRecDepth 100000

/- Constants from the header. -/

/-- Size of RAM, in bytes (`#define RAM_SIZE (2*1024*1024)`). -/
def RAM_SIZE : Nat := 2 * 1024 * 1024

/-- Size of a page, in bytes. -/
def PAGE_SIZE : Nat := 256

/-- NMI interrupt vector address. -/
def NMI_VECTOR : Nat := 0xfffa

/-- IRQ interrupt vector address. -/
def IRQ_VECTOR : Nat := 0xfffe

/-- RESET interrupt vector address. -/
def RESET_VECTOR : Nat := 0xfffc

/- Enumerators of `enum addressing_modes_6502`, with the header's
    explicit numeric values (note that 2 is skipped). -/

def ADDR_MODE_ACCUMULATOR : Nat := 0
def ADDR_MODE_ABSOLUTE : Nat := 1
def ADDR_MODE_ABSOLUTE_X : Nat := 3
def ADDR_MODE_ABSOLUTE_Y : Nat := 4
def ADDR_MODE_IMMEDIATE : Nat := 5
def ADDR_MODE_IMPLIED : Nat := 6
def ADDR_MODE_INDIRECT : Nat := 7
def ADDR_MODE_INDIRECT_X : Nat := 8
def ADDR_MODE_INDIRECT_Y : Nat := 9
def ADDR_MODE_RELATIVE : Nat := 10
def ADDR_MODE_ZERO_PAGE : Nat := 11
def ADDR_MODE_ZERO_PAGE_X : Nat := 12
def ADDR_MODE_ZERO_PAGE_Y : Nat := 13
def ADDR_MODE_NONE : Nat := 14

/- Enumerators of `enum instr_types_6502`, with the header's explicit
    numeric values.  11 is skipped, and `INSTR_TYPE_NONE` is declared
    as 47 — the same value as `INSTR_TYPE_CLC`. -/

def INSTR_TYPE_LDA : Nat := 0
def INSTR_TYPE_LDX : Nat := 1
def INSTR_TYPE_LDY : Nat := 2
def INSTR_TYPE_STA : Nat := 3
def INSTR_TYPE_STX : Nat := 4
def INSTR_TYPE_STY : Nat := 5
def INSTR_TYPE_TAX : Nat := 6
def INSTR_TYPE_TAY : Nat := 7
def INSTR_TYPE_TXA : Nat := 8
def INSTR_TYPE_TYA : Nat := 9
def INSTR_TYPE_TSX : Nat := 10
def INSTR_TYPE_TXS : Nat := 12
def INSTR_TYPE_PHA : Nat := 13
def INSTR_TYPE_PHP : Nat := 14
def INSTR_TYPE_PLA : Nat := 15
def INSTR_TYPE_PLP : Nat := 16
def INSTR_TYPE_AND : Nat := 17
def INSTR_TYPE_EOR : Nat := 18
def INSTR_TYPE_ORA : Nat := 19
def INSTR_TYPE_BIT : Nat := 20
def INSTR_TYPE_ADC : Nat := 21
def INSTR_TYPE_SBC : Nat := 22
def INSTR_TYPE_CMP : Nat := 23
def INSTR_TYPE_CPX : Nat := 24
def INSTR_TYPE_CPY : Nat := 25
def INSTR_TYPE_INC : Nat := 26
def INSTR_TYPE_INX : Nat := 27
def INSTR_TYPE_INY : Nat := 28
def INSTR_TYPE_DEC : Nat := 29
def INSTR_TYPE_DEX : Nat := 30
def INSTR_TYPE_DEY : Nat := 31
def INSTR_TYPE_ASL : Nat := 32
def INSTR_TYPE_LSR : Nat := 33
def INSTR_TYPE_ROL : Nat := 34
def INSTR_TYPE_ROR : Nat := 35
def INSTR_TYPE_JMP : Nat := 36
def INSTR_TYPE_JSR : Nat := 37
def INSTR_TYPE_RTS : Nat := 38
def INSTR_TYPE_BCC : Nat := 39
def INSTR_TYPE_BCS : Nat := 40
def INSTR_TYPE_BEQ : Nat := 41
def INSTR_TYPE_BMI : Nat := 42
def INSTR_TYPE_BNE : Nat := 43
def INSTR_TYPE_BPL : Nat := 44
def INSTR_TYPE_BVC : Nat := 45
def INSTR_TYPE_BVS : Nat := 46
def INSTR_TYPE_CLC : Nat := 47
def INSTR_TYPE_CLD : Nat := 48
def INSTR_TYPE_CLI : Nat := 49
def INSTR_TYPE_CLV : Nat := 50
def INSTR_TYPE_SEC : Nat := 51
def INSTR_TYPE_SED : Nat := 52
def INSTR_TYPE_SEI : Nat := 53
def INSTR_TYPE_BRK : Nat := 54
def INSTR_TYPE_NOP : Nat := 55
def INSTR_TYPE_RTI : Nat := 56

/-- Declared value of the empty-slot sentinel of `enum instr_types_6502`;
    the header assigns it 47, which collides with `INSTR_TYPE_CLC`. -/
def INSTR_TYPE_NONE : Nat := 47

/-- The 256-entry table `instruction_modes_6502` of the header, as the
    list of its entries in index order: the addressing mode for each
    opcode byte. -/
def instruction_modes_6502_table : List Nat := [
  ADDR_MODE_IMPLIED, ADDR_MODE_INDIRECT_X, ADDR_MODE_NONE, ADDR_MODE_NONE, ADDR_MODE_NONE, ADDR_MODE_ZERO_PAGE, ADDR_MODE_ZERO_PAGE, ADDR_MODE_NONE, ADDR_MODE_IMPLIED, ADDR_MODE_IMMEDIATE, ADDR_MODE_ACCUMULATOR, ADDR_MODE_NONE, ADDR_MODE_NONE, ADDR_MODE_ABSOLUTE, ADDR_MODE_ABSOLUTE, ADDR_MODE_NONE,
  ADDR_MODE_RELATIVE, ADDR_MODE_INDIRECT_Y, ADDR_MODE_NONE, ADDR_MODE_NONE, ADDR_MODE_NONE, ADDR_MODE_ZERO_PAGE_X, ADDR_MODE_ZERO_PAGE_X, ADDR_MODE_NONE, ADDR_MODE_IMPLIED, ADDR_MODE_ABSOLUTE_Y, ADDR_MODE_NONE, ADDR_MODE_NONE, ADDR_MODE_NONE, ADDR_MODE_ABSOLUTE_X, ADDR_MODE_ABSOLUTE_X, ADDR_MODE_NONE,
  ADDR_MODE_ABSOLUTE, ADDR_MODE_INDIRECT_X, ADDR_MODE_NONE, ADDR_MODE_NONE, ADDR_MODE_ZERO_PAGE, ADDR_MODE_ZERO_PAGE, ADDR_MODE_ZERO_PAGE, ADDR_MODE_NONE, ADDR_MODE_IMPLIED, ADDR_MODE_IMMEDIATE, ADDR_MODE_ACCUMULATOR, ADDR_MODE_NONE, ADDR_MODE_ABSOLUTE, ADDR_MODE_ABSOLUTE, ADDR_MODE_ABSOLUTE, ADDR_MODE_NONE,
  ADDR_MODE_RELATIVE, ADDR_MODE_INDIRECT_Y, ADDR_MODE_NONE, ADDR_MODE_NONE, ADDR_MODE_NONE, ADDR_MODE_ZERO_PAGE_X, ADDR_MODE_ZERO_PAGE_X, ADDR_MODE_NONE, ADDR_MODE_IMPLIED, ADDR_MODE_ABSOLUTE_Y, ADDR_MODE_NONE, ADDR_MODE_NONE, ADDR_MODE_NONE, ADDR_MODE_ABSOLUTE_X, ADDR_MODE_ABSOLUTE_X, ADDR_MODE_NONE,
  ADDR_MODE_IMPLIED, ADDR_MODE_INDIRECT_X, ADDR_MODE_NONE, ADDR_MODE_NONE, ADDR_MODE_NONE, ADDR_MODE_ZERO_PAGE, ADDR_MODE_ZERO_PAGE, ADDR_MODE_NONE, ADDR_MODE_IMPLIED, ADDR_MODE_IMMEDIATE, ADDR_MODE_ACCUMULATOR, ADDR_MODE_NONE, ADDR_MODE_ABSOLUTE, ADDR_MODE_ABSOLUTE, ADDR_MODE_ABSOLUTE, ADDR_MODE_NONE,
  ADDR_MODE_RELATIVE, ADDR_MODE_INDIRECT_Y, ADDR_MODE_NONE, ADDR_MODE_NONE, ADDR_MODE_NONE, ADDR_MODE_ZERO_PAGE_X, ADDR_MODE_ZERO_PAGE_X, ADDR_MODE_NONE, ADDR_MODE_IMPLIED, ADDR_MODE_ABSOLUTE_Y, ADDR_MODE_NONE, ADDR_MODE_NONE, ADDR_MODE_NONE, ADDR_MODE_ABSOLUTE_X, ADDR_MODE_ABSOLUTE_X, ADDR_MODE_NONE,
  ADDR_MODE_IMPLIED, ADDR_MODE_INDIRECT_X, ADDR_MODE_NONE, ADDR_MODE_NONE, ADDR_MODE_NONE, ADDR_MODE_ZERO_PAGE, ADDR_MODE_ZERO_PAGE, ADDR_MODE_NONE, ADDR_MODE_IMPLIED, ADDR_MODE_IMMEDIATE, ADDR_MODE_ACCUMULATOR, ADDR_MODE_NONE, ADDR_MODE_INDIRECT, ADDR_MODE_ABSOLUTE, ADDR_MODE_ABSOLUTE, ADDR_MODE_NONE,
  ADDR_MODE_RELATIVE, ADDR_MODE_INDIRECT_Y, ADDR_MODE_NONE, ADDR_MODE_NONE, ADDR_MODE_NONE, ADDR_MODE_ZERO_PAGE_X, ADDR_MODE_ZERO_PAGE_X, ADDR_MODE_NONE, ADDR_MODE_IMPLIED, ADDR_MODE_ABSOLUTE_Y, ADDR_MODE_NONE, ADDR_MODE_NONE, ADDR_MODE_NONE, ADDR_MODE_ABSOLUTE_X, ADDR_MODE_ABSOLUTE_X, ADDR_MODE_NONE,
  ADDR_MODE_NONE, ADDR_MODE_INDIRECT_X, ADDR_MODE_NONE, ADDR_MODE_NONE, ADDR_MODE_ZERO_PAGE, ADDR_MODE_ZERO_PAGE, ADDR_MODE_ZERO_PAGE, ADDR_MODE_NONE, ADDR_MODE_IMPLIED, ADDR_MODE_NONE, ADDR_MODE_IMPLIED, ADDR_MODE_NONE, ADDR_MODE_ABSOLUTE, ADDR_MODE_ABSOLUTE, ADDR_MODE_ABSOLUTE, ADDR_MODE_NONE,
  ADDR_MODE_RELATIVE, ADDR_MODE_INDIRECT_Y, ADDR_MODE_NONE, ADDR_MODE_NONE, ADDR_MODE_ZERO_PAGE_X, ADDR_MODE_ZERO_PAGE_X, ADDR_MODE_ZERO_PAGE_Y, ADDR_MODE_NONE, ADDR_MODE_IMPLIED, ADDR_MODE_ABSOLUTE_Y, ADDR_MODE_IMPLIED, ADDR_MODE_NONE, ADDR_MODE_NONE, ADDR_MODE_ABSOLUTE_X, ADDR_MODE_NONE, ADDR_MODE_NONE,
  ADDR_MODE_IMMEDIATE, ADDR_MODE_INDIRECT_X, ADDR_MODE_IMMEDIATE, ADDR_MODE_NONE, ADDR_MODE_ZERO_PAGE, ADDR_MODE_ZERO_PAGE, ADDR_MODE_ZERO_PAGE, ADDR_MODE_NONE, ADDR_MODE_IMPLIED, ADDR_MODE_IMMEDIATE, ADDR_MODE_IMPLIED, ADDR_MODE_NONE, ADDR_MODE_ABSOLUTE, ADDR_MODE_ABSOLUTE, ADDR_MODE_ABSOLUTE, ADDR_MODE_NONE,
  ADDR_MODE_RELATIVE, ADDR_MODE_INDIRECT_Y, ADDR_MODE_NONE, ADDR_MODE_NONE, ADDR_MODE_ZERO_PAGE_X, ADDR_MODE_ZERO_PAGE_X, ADDR_MODE_ZERO_PAGE_Y, ADDR_MODE_NONE, ADDR_MODE_IMPLIED, ADDR_MODE_ABSOLUTE_Y, ADDR_MODE_IMPLIED, ADDR_MODE_NONE, ADDR_MODE_ABSOLUTE_X, ADDR_MODE_ABSOLUTE_X, ADDR_MODE_ABSOLUTE_Y, ADDR_MODE_NONE,
  ADDR_MODE_IMMEDIATE, ADDR_MODE_INDIRECT_X, ADDR_MODE_NONE, ADDR_MODE_NONE, ADDR_MODE_ZERO_PAGE, ADDR_MODE_ZERO_PAGE, ADDR_MODE_ZERO_PAGE, ADDR_MODE_NONE, ADDR_MODE_IMPLIED, ADDR_MODE_IMMEDIATE, ADDR_MODE_IMPLIED, ADDR_MODE_NONE, ADDR_MODE_ABSOLUTE, ADDR_MODE_ABSOLUTE, ADDR_MODE_ABSOLUTE, ADDR_MODE_NONE,
  ADDR_MODE_RELATIVE, ADDR_MODE_INDIRECT_Y, ADDR_MODE_NONE, ADDR_MODE_NONE, ADDR_MODE_NONE, ADDR_MODE_ZERO_PAGE_X, ADDR_MODE_ZERO_PAGE_Y, ADDR_MODE_NONE, ADDR_MODE_IMPLIED, ADDR_MODE_ABSOLUTE_Y, ADDR_MODE_NONE, ADDR_MODE_NONE, ADDR_MODE_NONE, ADDR_MODE_ABSOLUTE_X, ADDR_MODE_ABSOLUTE_X, ADDR_MODE_NONE,
  ADDR_MODE_IMMEDIATE, ADDR_MODE_INDIRECT_X, ADDR_MODE_NONE, ADDR_MODE_NONE, ADDR_MODE_ZERO_PAGE, ADDR_MODE_ZERO_PAGE, ADDR_MODE_ZERO_PAGE, ADDR_MODE_NONE, ADDR_MODE_IMPLIED, ADDR_MODE_IMMEDIATE, ADDR_MODE_IMPLIED, ADDR_MODE_NONE, ADDR_MODE_ABSOLUTE, ADDR_MODE_ABSOLUTE, ADDR_MODE_ABSOLUTE, ADDR_MODE_NONE,
  ADDR_MODE_RELATIVE, ADDR_MODE_INDIRECT_Y, ADDR_MODE_NONE, ADDR_MODE_NONE, ADDR_MODE_NONE, ADDR_MODE_ZERO_PAGE_X, ADDR_MODE_ZERO_PAGE_X, ADDR_MODE_NONE, ADDR_MODE_IMPLIED, ADDR_MODE_ABSOLUTE_Y, ADDR_MODE_NONE, ADDR_MODE_NONE, ADDR_MODE_NONE, ADDR_MODE_ABSOLUTE_X, ADDR_MODE_ABSOLUTE_X, ADDR_MODE_NONE ]

/-- Lookup in `instruction_modes_6502` at an opcode byte.  C indexes
    the array directly; every actual opcode is below 256, so the
    default only makes the Lean function total. -/
def instruction_modes_6502 (op : Nat) : Nat :=
  instruction_modes_6502_table.getD op ADDR_MODE_NONE

/-- The 256-entry table `instruction_types_6502` of the header, as the
    list of its entries in index order: the instruction type for each
    opcode byte. -/
def instruction_types_6502_table : List Nat := [
  INSTR_TYPE_BRK, INSTR_TYPE_ORA, INSTR_TYPE_NONE, INSTR_TYPE_NONE, INSTR_TYPE_NONE, INSTR_TYPE_ORA, INSTR_TYPE_ASL, INSTR_TYPE_NONE, INSTR_TYPE_PHP, INSTR_TYPE_ORA, INSTR_TYPE_ASL, INSTR_TYPE_NONE, INSTR_TYPE_NONE, INSTR_TYPE_ORA, INSTR_TYPE_ASL, INSTR_TYPE_NONE,
  INSTR_TYPE_BPL, INSTR_TYPE_ORA, INSTR_TYPE_NONE, INSTR_TYPE_NONE, INSTR_TYPE_NONE, INSTR_TYPE_ORA, INSTR_TYPE_ASL, INSTR_TYPE_NONE, INSTR_TYPE_CLC, INSTR_TYPE_ORA, INSTR_TYPE_NONE, INSTR_TYPE_NONE, INSTR_TYPE_NONE, INSTR_TYPE_ORA, INSTR_TYPE_ASL, INSTR_TYPE_NONE,
  INSTR_TYPE_JSR, INSTR_TYPE_AND, INSTR_TYPE_NONE, INSTR_TYPE_NONE, INSTR_TYPE_BIT, INSTR_TYPE_AND, INSTR_TYPE_ROL, INSTR_TYPE_NONE, INSTR_TYPE_PLP, INSTR_TYPE_AND, INSTR_TYPE_ROL, INSTR_TYPE_NONE, INSTR_TYPE_BIT, INSTR_TYPE_AND, INSTR_TYPE_ROL, INSTR_TYPE_NONE,
  INSTR_TYPE_BMI, INSTR_TYPE_AND, INSTR_TYPE_NONE, INSTR_TYPE_NONE, INSTR_TYPE_NONE, INSTR_TYPE_AND, INSTR_TYPE_ROL, INSTR_TYPE_NONE, INSTR_TYPE_SEC, INSTR_TYPE_AND, INSTR_TYPE_NONE, INSTR_TYPE_NONE, INSTR_TYPE_NONE, INSTR_TYPE_AND, INSTR_TYPE_ROL, INSTR_TYPE_NONE,
  INSTR_TYPE_RTI, INSTR_TYPE_EOR, INSTR_TYPE_NONE, INSTR_TYPE_NONE, INSTR_TYPE_NONE, INSTR_TYPE_EOR, INSTR_TYPE_LSR, INSTR_TYPE_NONE, INSTR_TYPE_PHA, INSTR_TYPE_EOR, INSTR_TYPE_LSR, INSTR_TYPE_NONE, INSTR_TYPE_JMP, INSTR_TYPE_EOR, INSTR_TYPE_LSR, INSTR_TYPE_NONE,
  INSTR_TYPE_BVC, INSTR_TYPE_EOR, INSTR_TYPE_NONE, INSTR_TYPE_NONE, INSTR_TYPE_NONE, INSTR_TYPE_EOR, INSTR_TYPE_LSR, INSTR_TYPE_NONE, INSTR_TYPE_CLI, INSTR_TYPE_EOR, INSTR_TYPE_NONE, INSTR_TYPE_NONE, INSTR_TYPE_NONE, INSTR_TYPE_EOR, INSTR_TYPE_LSR, INSTR_TYPE_NONE,
  INSTR_TYPE_RTS, INSTR_TYPE_ADC, INSTR_TYPE_NONE, INSTR_TYPE_NONE, INSTR_TYPE_NONE, INSTR_TYPE_ADC, INSTR_TYPE_ROR, INSTR_TYPE_NONE, INSTR_TYPE_PLA, INSTR_TYPE_ADC, INSTR_TYPE_ROR, INSTR_TYPE_NONE, INSTR_TYPE_JMP, INSTR_TYPE_ADC, INSTR_TYPE_ROR, INSTR_TYPE_NONE,
  INSTR_TYPE_BVS, INSTR_TYPE_ADC, INSTR_TYPE_NONE, INSTR_TYPE_NONE, INSTR_TYPE_NONE, INSTR_TYPE_ADC, INSTR_TYPE_ROR, INSTR_TYPE_NONE, INSTR_TYPE_SEI, INSTR_TYPE_ADC, INSTR_TYPE_NONE, INSTR_TYPE_NONE, INSTR_TYPE_NONE, INSTR_TYPE_ADC, INSTR_TYPE_ROR, INSTR_TYPE_NONE,
  INSTR_TYPE_NONE, INSTR_TYPE_STA, INSTR_TYPE_NONE, INSTR_TYPE_NONE, INSTR_TYPE_STY, INSTR_TYPE_STA, INSTR_TYPE_STX, INSTR_TYPE_NONE, INSTR_TYPE_DEY, INSTR_TYPE_NONE, INSTR_TYPE_TXA, INSTR_TYPE_NONE, INSTR_TYPE_STY, INSTR_TYPE_STA, INSTR_TYPE_STX, INSTR_TYPE_NONE,
  INSTR_TYPE_BCC, INSTR_TYPE_STA, INSTR_TYPE_NONE, INSTR_TYPE_NONE, INSTR_TYPE_STY, INSTR_TYPE_STA, INSTR_TYPE_STX, INSTR_TYPE_NONE, INSTR_TYPE_TYA, INSTR_TYPE_STA, INSTR_TYPE_TXS, INSTR_TYPE_NONE, INSTR_TYPE_NONE, INSTR_TYPE_STA, INSTR_TYPE_NONE, INSTR_TYPE_NONE,
  INSTR_TYPE_LDY, INSTR_TYPE_LDA, INSTR_TYPE_LDX, INSTR_TYPE_NONE, INSTR_TYPE_LDY, INSTR_TYPE_LDA, INSTR_TYPE_LDX, INSTR_TYPE_NONE, INSTR_TYPE_TAY, INSTR_TYPE_LDA, INSTR_TYPE_TAX, INSTR_TYPE_NONE, INSTR_TYPE_LDY, INSTR_TYPE_LDA, INSTR_TYPE_LDX, INSTR_TYPE_NONE,
  INSTR_TYPE_BCS, INSTR_TYPE_LDA, INSTR_TYPE_NONE, INSTR_TYPE_NONE, INSTR_TYPE_LDY, INSTR_TYPE_LDA, INSTR_TYPE_LDX, INSTR_TYPE_NONE, INSTR_TYPE_CLV, INSTR_TYPE_LDA, INSTR_TYPE_TSX, INSTR_TYPE_NONE, INSTR_TYPE_LDY, INSTR_TYPE_LDA, INSTR_TYPE_LDX, INSTR_TYPE_NONE,
  INSTR_TYPE_CPY, INSTR_TYPE_CMP, INSTR_TYPE_NONE, INSTR_TYPE_NONE, INSTR_TYPE_CPY, INSTR_TYPE_CMP, INSTR_TYPE_DEC, INSTR_TYPE_NONE, INSTR_TYPE_INY, INSTR_TYPE_CMP, INSTR_TYPE_DEX, INSTR_TYPE_NONE, INSTR_TYPE_CPY, INSTR_TYPE_CMP, INSTR_TYPE_DEC, INSTR_TYPE_NONE,
  INSTR_TYPE_BNE, INSTR_TYPE_CMP, INSTR_TYPE_NONE, INSTR_TYPE_NONE, INSTR_TYPE_NONE, INSTR_TYPE_CMP, INSTR_TYPE_DEC, INSTR_TYPE_NONE, INSTR_TYPE_CLD, INSTR_TYPE_CMP, INSTR_TYPE_NONE, INSTR_TYPE_NONE, INSTR_TYPE_NONE, INSTR_TYPE_CMP, INSTR_TYPE_DEC, INSTR_TYPE_NONE,
  INSTR_TYPE_CPX, INSTR_TYPE_SBC, INSTR_TYPE_NONE, INSTR_TYPE_NONE, INSTR_TYPE_CPX, INSTR_TYPE_SBC, INSTR_TYPE_INC, INSTR_TYPE_NONE, INSTR_TYPE_INX, INSTR_TYPE_SBC, INSTR_TYPE_NOP, INSTR_TYPE_NONE, INSTR_TYPE_CPX, INSTR_TYPE_SBC, INSTR_TYPE_INC, INSTR_TYPE_NONE,
  INSTR_TYPE_BEQ, INSTR_TYPE_SBC, INSTR_TYPE_NONE, INSTR_TYPE_NONE, INSTR_TYPE_NONE, INSTR_TYPE_SBC, INSTR_TYPE_INC, INSTR_TYPE_NONE, INSTR_TYPE_SED, INSTR_TYPE_SBC, INSTR_TYPE_NONE, INSTR_TYPE_NONE, INSTR_TYPE_NONE, INSTR_TYPE_SBC, INSTR_TYPE_INC, INSTR_TYPE_NONE ]

/-- Lookup in `instruction_types_6502` at an opcode byte.  C indexes
    the array directly; every actual opcode is below 256, so the
    default only makes the Lean function total. -/
def instruction_types_6502 (op : Nat) : Nat :=
  instruction_types_6502_table.getD op INSTR_TYPE_NONE

/-- The CPU state, `struct cpu6502` of the header.  The anonymous union
    overlays the status byte with eight one-bit fields; the bit view is
    the one the code and the claims use, so each flag bit is a `Bool`
    field here.  `pc` is a uint16_t, `sp`/`a`/`x`/`y`/`data` are
    uint8_t, `ram` is a uint8_t array (modelled as a function from
    addresses to byte values), `ram_size` and `cycles_behind` are
    size_t, and `instruction_mode` is the C enum, i.e. an integer. -/
structure cpu6502 where
  pc : Nat
  sp : Nat
  a : Nat
  x : Nat
  y : Nat
  flags_c : Bool
  flags_z : Bool
  flags_i : Bool
  flags_d : Bool
  flags_b : Bool
  flags_u : Bool
  flags_v : Bool
  flags_n : Bool
  ram : Nat → Nat
  ram_size : Nat
  cycles_behind : Nat
  instruction_mode : Nat
  data : Nat

/-- `cpu6502_reset` of the header, field assignments in source order.
    The program counter is loaded little-endian from the reset vector;
    the C assignment to the uint16_t `pc` truncates, hence `% 65536`.
    Fields the C function does not assign (`flags_b`, `flags_u`,
    `instruction_mode`, `data`) keep their prior values. -/
def cpu6502_reset (cpu : cpu6502) : cpu6502 :=
  { cpu with
    cycles_behind := 6
    ram_size := RAM_SIZE
    flags_i := true
    flags_d := false
    pc := (cpu.ram RESET_VECTOR ||| (cpu.ram (RESET_VECTOR + 1) <<< 8)) % 65536
    flags_z := true
    flags_n := false
    flags_v := false
    flags_c := false
    sp := 0xff
    a := 0
    x := 0
    y := 0 }

/-- `cpu6502_step` of the header.  Its `if (cpu->cycles_behind > 0)`
    has an empty body, so the only effect of the function is the
    unconditional size_t decrement `cpu->cycles_behind--`, which wraps
    modulo `2 ^ 64`. -/
def cpu6502_step (cpu : cpu6502) : cpu6502 :=
  { cpu with cycles_behind := (cpu.cycles_behind + (2 ^ 64 - 1)) % 2 ^ 64 }

/-- A concrete all-zero CPU state, used as a base for concrete test
    states in witnesses and counterexamples. -/
def zeroCpu : cpu6502 where
  pc := 0
  sp := 0
  a := 0
  x := 0
  y := 0
  flags_c := false
  flags_z := false
  flags_i := false
  flags_d := false
  flags_b := false
  flags_u := false
  flags_v := false
  flags_n := false
  ram := fun _ => 0
  ram_size := 0
  cycles_behind := 0
  instruction_mode := 0
  data := 0

/- Components modelled from the spec.  The header defines no
   AddressResolver and no Executor; the claims about them are settled
   against the following models of the spec's §4.2 and §4.4. -/

/-- Page number of an address: pages are 256-byte aligned regions. -/
def pageOf (addr : Nat) : Nat := addr / 256

/-- Modelled from the spec: the indirect-mode pointer read of the
    missing AddressResolver (§4.2).  The target is read little-endian
    from the pointer address, but page wrap is defective: if the low
    byte of the pointer address is 0xff, the high byte of the target is
    fetched from the start of the same page, not the next page. -/
def indirectTargetAddr (mem : Nat → Nat) (ptr : Nat) : Nat :=
  let lo := mem ptr % 256
  let hiSrc := if ptr % 256 = 0xff then ptr / 256 * 256 else ptr + 1
  let hi := mem hiSrc % 256
  lo + 256 * hi

/-- Modelled from the spec: the transient resolved operand of §3 —
    effective address or immediate value, plus the boundary-crossing
    flag used only to compute timing. -/
structure resolved_operand where
  addr : Nat
  value : Nat
  pageCross : Bool

/-- Modelled from the spec: the missing AddressResolver (§4.2).  Given
    the state and an addressing mode it computes the effective address
    or operand value and whether resolution crossed a page boundary.
    The one or two bytes following the opcode are read at pc+1/pc+2. -/
def resolveOperand (s : cpu6502) (mode : Nat) : resolved_operand :=
  let b1 := s.ram ((s.pc + 1) % 65536) % 256
  let b2 := s.ram ((s.pc + 2) % 65536) % 256
  if mode = ADDR_MODE_ACCUMULATOR then
    { addr := 0, value := s.a % 256, pageCross := false }
  else if mode = ADDR_MODE_IMPLIED then
    { addr := 0, value := 0, pageCross := false }
  else if mode = ADDR_MODE_IMMEDIATE then
    { addr := 0, value := b1, pageCross := false }
  else if mode = ADDR_MODE_ZERO_PAGE then
    { addr := b1, value := s.ram b1 % 256, pageCross := false }
  else if mode = ADDR_MODE_ZERO_PAGE_X then
    let a := (b1 + s.x) % 256
    { addr := a, value := s.ram a % 256, pageCross := false }
  else if mode = ADDR_MODE_ZERO_PAGE_Y then
    let a := (b1 + s.y) % 256
    { addr := a, value := s.ram a % 256, pageCross := false }
  else if mode = ADDR_MODE_ABSOLUTE then
    let a := b1 + 256 * b2
    { addr := a, value := s.ram a % 256, pageCross := false }
  else if mode = ADDR_MODE_ABSOLUTE_X then
    let base := b1 + 256 * b2
    let a := (base + s.x) % 65536
    { addr := a, value := s.ram a % 256, pageCross := pageOf a != pageOf base }
  else if mode = ADDR_MODE_ABSOLUTE_Y then
    let base := b1 + 256 * b2
    let a := (base + s.y) % 65536
    { addr := a, value := s.ram a % 256, pageCross := pageOf a != pageOf base }
  else if mode = ADDR_MODE_INDIRECT then
    let ptr := b1 + 256 * b2
    let a := indirectTargetAddr s.ram ptr
    { addr := a, value := s.ram a % 256, pageCross := false }
  else if mode = ADDR_MODE_INDIRECT_X then
    let zp := (b1 + s.x) % 256
    let a := s.ram zp % 256 + 256 * (s.ram ((zp + 1) % 256) % 256)
    { addr := a, value := s.ram a % 256, pageCross := false }
  else if mode = ADDR_MODE_INDIRECT_Y then
    let base := s.ram b1 % 256 + 256 * (s.ram ((b1 + 1) % 256) % 256)
    let a := (base + s.y) % 65536
    { addr := a, value := s.ram a % 256, pageCross := pageOf a != pageOf base }
  else if mode = ADDR_MODE_RELATIVE then
    let pcAfter := (s.pc + 2) % 65536
    let target :=
      if b1 < 128 then (pcAfter + b1) % 65536
      else (pcAfter + b1 + 65536 - 256) % 65536
    { addr := target, value := b1, pageCross := pageOf target != pageOf pcAfter }
  else
    { addr := 0, value := 0, pageCross := false }

/-- Modelled from the spec: the branch instruction types of §4.2. -/
def isBranch (t : Nat) : Bool :=
  t == INSTR_TYPE_BCC || t == INSTR_TYPE_BCS || t == INSTR_TYPE_BEQ ||
  t == INSTR_TYPE_BMI || t == INSTR_TYPE_BNE || t == INSTR_TYPE_BPL ||
  t == INSTR_TYPE_BVC || t == INSTR_TYPE_BVS

/-- Modelled from the spec: whether a branch of the given type is taken
    in the given state. -/
def branchTaken (s : cpu6502) (t : Nat) : Bool :=
  if t = INSTR_TYPE_BCC then !s.flags_c
  else if t = INSTR_TYPE_BCS then s.flags_c
  else if t = INSTR_TYPE_BEQ then s.flags_z
  else if t = INSTR_TYPE_BMI then s.flags_n
  else if t = INSTR_TYPE_BNE then !s.flags_z
  else if t = INSTR_TYPE_BPL then !s.flags_n
  else if t = INSTR_TYPE_BVC then !s.flags_v
  else if t = INSTR_TYPE_BVS then s.flags_v
  else false

/-- Modelled from the spec: write-class instruction types (stores and
    read-modify-writes), which do not pay the page-crossing penalty on
    indexed forms (§4.2). -/
def writeClass (t : Nat) : Bool :=
  t == INSTR_TYPE_STA || t == INSTR_TYPE_STX || t == INSTR_TYPE_STY ||
  t == INSTR_TYPE_ASL || t == INSTR_TYPE_LSR || t == INSTR_TYPE_ROL ||
  t == INSTR_TYPE_ROR || t == INSTR_TYPE_INC || t == INSTR_TYPE_DEC

/-- Modelled from the spec: the indexed addressing modes whose page
    crossing costs one extra cycle (§4.2). -/
def indexedPenaltyMode (mode : Nat) : Bool :=
  mode == ADDR_MODE_ABSOLUTE_X || mode == ADDR_MODE_ABSOLUTE_Y ||
  mode == ADDR_MODE_INDIRECT_Y

/-- Modelled from the spec: the cycle accounting of the missing
    Executor (§4.4).  The header also has no base-cycle table, so the
    base cycle count of §4.1 is a parameter `base`.  An opcode is
    unassigned exactly when its addressing-mode entry is the sentinel
    `ADDR_MODE_NONE` (which, unlike `INSTR_TYPE_NONE`, is not aliased
    to any defined value); such opcodes fail with InvalidOpcode, here
    `none`.  Defined opcodes cost the base cycles plus the resolver's
    page-crossing penalty plus the branch-taken penalty. -/
def executeCycles (base : Nat → Nat) (s : cpu6502) (opcode : Nat) : Option Nat :=
  let mode := instruction_modes_6502 opcode
  let t := instruction_types_6502 opcode
  if mode = ADDR_MODE_NONE then
    none
  else
    let r := resolveOperand s mode
    let crossPenalty :=
      if r.pageCross && indexedPenaltyMode mode && !writeClass t then 1 else 0
    let branchPenalty :=
      if isBranch t then
        if branchTaken s t then 1 + (if r.pageCross then 1 else 0) else 0
      else 0
    some (base opcode + crossPenalty + branchPenalty)

/- Concrete states used by witnesses and counterexamples. -/

/-- A state whose cycle debt is exhausted and whose program counter
    points at a defined opcode (0xa9, LDA immediate). -/
def debtExhaustedCpu : cpu6502 :=
  { zeroCpu with ram := fun addr => if addr = 0 then 0xa9 else 0 }

/-- The reset scenario of §8: memory holding 0x8000 little-endian at
    the reset vector. -/
def resetScenarioCpu : cpu6502 :=
  { zeroCpu with ram := fun addr => if addr = 0xfffd then 0x80 else 0 }

/-- Concrete memory for the indirect page-wrap witness: pointer at
    0x02ff, target low byte 0x34 at the pointer, 0x12 at the start of
    page 0x02, and a decoy 0x99 at 0x0300, the next-page byte that the
    defective wrap must not read. -/
def pageWrapMem : Nat → Nat := fun addr =>
  if addr = 0x02ff then 0x34
  else if addr = 0x0200 then 0x12
  else if addr = 0x0300 then 0x99
  else 0

/- Helper lemmas. -/

/-- A byte or-ed with a value shifted left past it is their sum: the
    two operands occupy disjoint bit ranges. -/
theorem lor_shiftLeft_eq_add {lo hi : Nat} (h : lo < 256) :
    lo ||| hi <<< 8 = lo + 256 * hi := by
  have h8 : lo < 2 ^ 8 := by omega
  have h2 : 2 ^ 8 * hi + lo = 2 ^ 8 * hi ||| lo := Nat.mul_add_lt_is_or h8 hi
  rw [Nat.shiftLeft_eq, Nat.lor_comm, Nat.mul_comm, ← h2]
  omega

/- Claim theorems. -/

/-- C1: with the cycle debt exhausted and a defined opcode (0xa9, LDA
    immediate) waiting at the program counter, `cpu6502_step` does not
    fetch, execute, or re-arm the debt counter with a realized
    instruction cost: it leaves every register and memory byte
    unchanged and merely underflows the debt counter to 2 ^ 64 - 1.
    This evaluates the code at the failing input of the claim's
    debt-exhausted case. -/
theorem step_at_exhausted_debt_only_underflows :
    debtExhaustedCpu.cycles_behind = 0
    ∧ instruction_modes_6502 (debtExhaustedCpu.ram debtExhaustedCpu.pc) ≠ ADDR_MODE_NONE
    ∧ (cpu6502_step debtExhaustedCpu).pc = debtExhaustedCpu.pc
    ∧ (cpu6502_step debtExhaustedCpu).a = debtExhaustedCpu.a
    ∧ (cpu6502_step debtExhaustedCpu).ram = debtExhaustedCpu.ram
    ∧ (cpu6502_step debtExhaustedCpu).cycles_behind = 2 ^ 64 - 1 :=
  ⟨rfl, by decide, rfl, rfl, rfl, by decide⟩

/-- C2: after `cpu6502_reset`, the program counter holds the
    little-endian 16-bit value stored at the reset vector, the
    interrupt-disable flag is set, the decimal flag is clear, the stack
    pointer is 0xff, the cycle-debt counter is the fixed constant 6
    whatever the prior state was, and no memory byte has been written.
    The two hypotheses record that a uint8_t memory cell holds a value
    below 256. -/
theorem reset_establishes_contract (s : cpu6502)
    (hlo : s.ram RESET_VECTOR < 256) (hhi : s.ram (RESET_VECTOR + 1) < 256) :
    (cpu6502_reset s).pc = s.ram RESET_VECTOR + 256 * s.ram (RESET_VECTOR + 1)
    ∧ (cpu6502_reset s).flags_i = true
    ∧ (cpu6502_reset s).flags_d = false
    ∧ (cpu6502_reset s).sp = 0xff
    ∧ (cpu6502_reset s).cycles_behind = 6
    ∧ (cpu6502_reset s).ram = s.ram := by
  obtain ⟨pc, sp, a, x, y, fc, fz, fi, fd, fb, fu, fv, fn, ram, rs, cb, im, dt⟩ := s
  replace hlo : ram RESET_VECTOR < 256 := hlo
  replace hhi : ram (RESET_VECTOR + 1) < 256 := hhi
  refine ⟨?_, rfl, rfl, rfl, rfl, rfl⟩
  show (ram RESET_VECTOR ||| ram (RESET_VECTOR + 1) <<< 8) % 65536
      = ram RESET_VECTOR + 256 * ram (RESET_VECTOR + 1)
  rw [lor_shiftLeft_eq_add hlo, Nat.mod_eq_of_lt (by omega)]

/-- Witness for C2 at the spec's own reset scenario: the reset vector
    holds 0x8000 little-endian and reset yields that program counter
    together with the rest of the contract. -/
theorem reset_establishes_contract_witness :
    resetScenarioCpu.ram RESET_VECTOR < 256
    ∧ resetScenarioCpu.ram (RESET_VECTOR + 1) < 256
    ∧ ((cpu6502_reset resetScenarioCpu).pc
          = resetScenarioCpu.ram RESET_VECTOR
            + 256 * resetScenarioCpu.ram (RESET_VECTOR + 1)
      ∧ (cpu6502_reset resetScenarioCpu).flags_i = true
      ∧ (cpu6502_reset resetScenarioCpu).flags_d = false
      ∧ (cpu6502_reset resetScenarioCpu).sp = 0xff
      ∧ (cpu6502_reset resetScenarioCpu).cycles_behind = 6
      ∧ (cpu6502_reset resetScenarioCpu).ram = resetScenarioCpu.ram) :=
  ⟨by decide, by decide,
    reset_establishes_contract resetScenarioCpu (by decide) (by decide)⟩

/-- C3 counterexample: the instruction-type sentinel `INSTR_TYPE_NONE`
    is declared as 47, which is the value of `INSTR_TYPE_CLC`, so the
    type table yields the sentinel at opcode 0x18 even though 0x18 is
    the defined CLC instruction (its addressing-mode entry is IMPLIED,
    not the mode sentinel).  Sentinel comparison therefore
    misclassifies the defined opcode 0x18. -/
theorem instr_type_sentinel_aliased :
    INSTR_TYPE_NONE = INSTR_TYPE_CLC
    ∧ instruction_types_6502 0x18 = INSTR_TYPE_NONE
    ∧ instruction_modes_6502 0x18 = ADDR_MODE_IMPLIED
    ∧ instruction_modes_6502 0x18 ≠ ADDR_MODE_NONE :=
  ⟨rfl, by decide, by decide, by decide⟩

/-- C3 (amended): the addressing-mode sentinel `ADDR_MODE_NONE` is
    distinct from all thirteen legitimate addressing-mode variants, but
    the instruction-type sentinel shares its value 47 with
    `INSTR_TYPE_CLC`; consequently the instruction-type table equals
    the sentinel exactly at the opcodes with no defined instruction
    (those whose addressing-mode entry is the mode sentinel) together
    with the defined opcode 0x18 (CLC), which sentinel comparison
    misclassifies. -/
theorem sentinel_distinctness_amended :
    (ADDR_MODE_NONE ≠ ADDR_MODE_ACCUMULATOR
      ∧ ADDR_MODE_NONE ≠ ADDR_MODE_ABSOLUTE
      ∧ ADDR_MODE_NONE ≠ ADDR_MODE_ABSOLUTE_X
      ∧ ADDR_MODE_NONE ≠ ADDR_MODE_ABSOLUTE_Y
      ∧ ADDR_MODE_NONE ≠ ADDR_MODE_IMMEDIATE
      ∧ ADDR_MODE_NONE ≠ ADDR_MODE_IMPLIED
      ∧ ADDR_MODE_NONE ≠ ADDR_MODE_INDIRECT
      ∧ ADDR_MODE_NONE ≠ ADDR_MODE_INDIRECT_X
      ∧ ADDR_MODE_NONE ≠ ADDR_MODE_INDIRECT_Y
      ∧ ADDR_MODE_NONE ≠ ADDR_MODE_RELATIVE
      ∧ ADDR_MODE_NONE ≠ ADDR_MODE_ZERO_PAGE
      ∧ ADDR_MODE_NONE ≠ ADDR_MODE_ZERO_PAGE_X
      ∧ ADDR_MODE_NONE ≠ ADDR_MODE_ZERO_PAGE_Y)
    ∧ INSTR_TYPE_NONE = INSTR_TYPE_CLC
    ∧ (∀ op : Fin 256,
        instruction_types_6502 op.val = INSTR_TYPE_NONE ↔
          (instruction_modes_6502 op.val = ADDR_MODE_NONE ∨ op.val = 0x18)) :=
  ⟨by decide, rfl, by decide⟩

/-- C4: the code never assigns the unused status bit: starting from a
    state in which it is 0, it is still 0 after reset and still 0
    after a subsequent step, so a reachable state violates the
    invariant that the unused bit always reads as 1. -/
theorem unused_flag_not_forced :
    (cpu6502_reset zeroCpu).flags_u = false
    ∧ (cpu6502_step (cpu6502_reset zeroCpu)).flags_u = false :=
  ⟨rfl, rfl⟩

/-- C5: the two tables the header does define are total over opcode
    bytes 0-255 with entries inside the declared enumerator ranges
    (mode at most `ADDR_MODE_NONE` = 14, type at most
    `INSTR_TYPE_RTI` = 56); the third mapping the claim names, a base
    cycle count, has no table in the header at all. -/
theorem mode_type_tables_total :
    ∀ op : Fin 256,
      instruction_modes_6502 op.val ≤ ADDR_MODE_NONE
      ∧ instruction_types_6502 op.val ≤ INSTR_TYPE_RTI := by
  decide

/-- C6 (modelled from the spec): for every opcode byte whose table
    entry is assigned (its addressing-mode entry is not the sentinel,
    which by `sentinel_distinctness_amended` is the unambiguous way to
    read definedness off the tables), the modelled Executor terminates
    with `some` cycle count, and that count is at least the opcode's
    base cycle count — for every base-cycle table and every state,
    since both penalties are nonnegative. -/
theorem executeCycles_ge_base (base : Nat → Nat) (s : cpu6502) (opcode : Nat)
    (h : instruction_modes_6502 opcode ≠ ADDR_MODE_NONE) :
    ∃ c, executeCycles base s opcode = some c ∧ base opcode ≤ c := by
  simp only [executeCycles, if_neg h]
  exact ⟨_, rfl, Nat.le_trans (Nat.le_add_right _ _) (Nat.le_add_right _ _)⟩

/-- Witness for C6 at opcode 0xa9 (LDA immediate), the all-zero state
    and the constant base-cycle table 2. -/
theorem executeCycles_ge_base_witness :
    instruction_modes_6502 0xa9 ≠ ADDR_MODE_NONE
    ∧ ∃ c, executeCycles (fun _ => 2) zeroCpu 0xa9 = some c ∧ 2 ≤ c :=
  ⟨by decide, executeCycles_ge_base (fun _ => 2) zeroCpu 0xa9 (by decide)⟩

/-- C7 (modelled from the spec): when the indirect pointer address has
    low byte 0xff, the target's high byte is fetched from the first
    address of the pointer's own page — an address whose low byte is
    0x00 and whose page equals the pointer's page — reproducing the
    hardware defect instead of reading the next page at ptr + 1. -/
theorem indirect_page_wrap_defect (mem : Nat → Nat) (ptr : Nat)
    (h : ptr % 256 = 0xff) :
    indirectTargetAddr mem ptr
        = mem ptr % 256 + 256 * (mem (ptr / 256 * 256) % 256)
    ∧ ptr / 256 * 256 % 256 = 0
    ∧ ptr / 256 * 256 / 256 = ptr / 256 := by
  refine ⟨?_, by omega, by omega⟩
  simp only [indirectTargetAddr, if_pos h]

/-- Witness for C7 at pointer 0x02ff: the high byte comes from 0x0200
    (start of page 0x02), not from the decoy at 0x0300. -/
theorem indirect_page_wrap_defect_witness :
    0x02ff % 256 = 0xff
    ∧ (indirectTargetAddr pageWrapMem 0x02ff
          = pageWrapMem 0x02ff % 256 + 256 * (pageWrapMem (0x02ff / 256 * 256) % 256)
      ∧ 0x02ff / 256 * 256 % 256 = 0
      ∧ 0x02ff / 256 * 256 / 256 = 0x02ff / 256) :=
  ⟨by decide, indirect_page_wrap_defect pageWrapMem 0x02ff (by decide)⟩

/-- C8: the backing store covers at least the full 16-bit address space
    (RAM_SIZE is 2 MiB ≥ 64 KiB); the only memory addresses the core
    ever reads are the two reset-vector bytes, both 16-bit addresses:
    reset computes the same program counter under any memory that
    agrees on those two bytes, the program counter reset writes is
    truncated into the 16-bit space, and step reads no memory at
    all. -/
theorem core_memory_accesses_16bit (s : cpu6502) (mem2 : Nat → Nat)
    (hlo : mem2 RESET_VECTOR = s.ram RESET_VECTOR)
    (hhi : mem2 (RESET_VECTOR + 1) = s.ram (RESET_VECTOR + 1)) :
    65536 ≤ RAM_SIZE
    ∧ RESET_VECTOR + 1 < 65536
    ∧ (cpu6502_reset { s with ram := mem2 }).pc = (cpu6502_reset s).pc
    ∧ (cpu6502_reset s).pc < 65536
    ∧ (cpu6502_step { s with ram := mem2 }).cycles_behind
        = (cpu6502_step s).cycles_behind := by
  obtain ⟨pc, sp, a, x, y, fc, fz, fi, fd, fb, fu, fv, fn, ram, rs, cb, im, dt⟩ := s
  replace hlo : mem2 RESET_VECTOR = ram RESET_VECTOR := hlo
  replace hhi : mem2 (RESET_VECTOR + 1) = ram (RESET_VECTOR + 1) := hhi
  refine ⟨by norm_num [RAM_SIZE], by norm_num [RESET_VECTOR], ?_, ?_, rfl⟩
  · show (mem2 RESET_VECTOR ||| mem2 (RESET_VECTOR + 1) <<< 8) % 65536
        = (ram RESET_VECTOR ||| ram (RESET_VECTOR + 1) <<< 8) % 65536
    rw [hlo, hhi]
  · exact Nat.mod_lt _ (by norm_num)

/-- Witness for C8 at the all-zero state and the constant-zero
    memory. -/
theorem core_memory_accesses_16bit_witness :
    65536 ≤ RAM_SIZE
    ∧ RESET_VECTOR + 1 < 65536
    ∧ (cpu6502_reset { zeroCpu with ram := fun _ => 0 }).pc
        = (cpu6502_reset zeroCpu).pc
    ∧ (cpu6502_reset zeroCpu).pc < 65536
    ∧ (cpu6502_step { zeroCpu with ram := fun _ => 0 }).cycles_behind
        = (cpu6502_step zeroCpu).cycles_behind :=
  core_memory_accesses_16bit zeroCpu (fun _ => 0) rfl rfl

/-- C9: `cpu6502_step` sets the cycle-debt counter to its decrement
    modulo 2 ^ 64; in particular, a counter already at 0 underflows to
    2 ^ 64 - 1 instead of staying at zero or going negative. -/
theorem step_decrements_mod_two_pow64 (s : cpu6502) :
    (cpu6502_step s).cycles_behind = (s.cycles_behind + (2 ^ 64 - 1)) % 2 ^ 64
    ∧ (s.cycles_behind = 0 →
        (cpu6502_step s).cycles_behind = 2 ^ 64 - 1) := by
  obtain ⟨pc, sp, a, x, y, fc, fz, fi, fd, fb, fu, fv, fn, ram, rs, cb, im, dt⟩ := s
  refine ⟨rfl, fun h => ?_⟩
  replace h : cb = 0 := h
  show (cb + (2 ^ 64 - 1)) % 2 ^ 64 = 2 ^ 64 - 1
  rw [h]
  norm_num

/-- Witness for C9 at the all-zero state, whose debt counter is 0. -/
theorem step_decrements_mod_two_pow64_witness :
    (cpu6502_step zeroCpu).cycles_behind = 2 ^ 64 - 1 :=
  (step_decrements_mod_two_pow64 zeroCpu).2 rfl

/-- C10: `cpu6502_step` changes no CPUState field other than the
    cycle-debt counter: the program counter, stack pointer,
    accumulator, X, Y, all eight status bits, every memory byte, the
    ram size and the scratch fields are unchanged, while the debt
    counter takes its decremented-mod-2 ^ 64 value. -/
theorem step_frame (s : cpu6502) :
    (cpu6502_step s).pc = s.pc
    ∧ (cpu6502_step s).sp = s.sp
    ∧ (cpu6502_step s).a = s.a
    ∧ (cpu6502_step s).x = s.x
    ∧ (cpu6502_step s).y = s.y
    ∧ (cpu6502_step s).flags_c = s.flags_c
    ∧ (cpu6502_step s).flags_z = s.flags_z
    ∧ (cpu6502_step s).flags_i = s.flags_i
    ∧ (cpu6502_step s).flags_d = s.flags_d
    ∧ (cpu6502_step s).flags_b = s.flags_b
    ∧ (cpu6502_step s).flags_u = s.flags_u
    ∧ (cpu6502_step s).flags_v = s.flags_v
    ∧ (cpu6502_step s).flags_n = s.flags_n
    ∧ (cpu6502_step s).ram = s.ram
    ∧ (cpu6502_step s).ram_size = s.ram_size
    ∧ (cpu6502_step s).instruction_mode = s.instruction_mode
    ∧ (cpu6502_step s).data = s.data
    ∧ (cpu6502_step s).cycles_behind = (s.cycles_behind + (2 ^ 64 - 1)) % 2 ^ 64 := by
  obtain ⟨pc, sp, a, x, y, fc, fz, fi, fd, fb, fu, fv, fn, ram, rs, cb, im, dt⟩ := s
  exact ⟨rfl, rfl, rfl, rfl, rfl, rfl, rfl, rfl, rfl, rfl, rfl, rfl, rfl, rfl,
    rfl, rfl, rfl, rfl⟩
